import Mathlib

/-!
Verification of the client-side TLS 1.3 handshake state machine of
`library/ssl_tls13_client.c` and `library/ssl_tls13_generic.c` (mbedtls,
TLS 1.3 prototype branch) against its natural-language specification.

The development shallowly embeds the relevant C functions: byte buffers
become `List Nat` (each element a byte value), machine integers become
`Nat`/`Int` with explicit reductions modulo `2^32`/`2^64` where overflow
matters, and fallible functions return an explicit result type that also
records the fatal alert pended via `MBEDTLS_SSL_PEND_FATAL_ALERT`.

Helper routines of the repository that live outside the two files above
(the SHA-2 message digests, `mbedtls_ct_memcmp`, HKDF-Expand-Label) are
modelled from the specification; each such definition carries a doc
comment starting with `Modelled from the spec:`.
-/

/-- Alert messages pended via `MBEDTLS_SSL_PEND_FATAL_ALERT` in the code
under study.  The numeric alert codes live in headers outside the two
source files, so the alerts are represented symbolically. -/
inductive AlertMsg where
  | decodeError
  | decryptError
  | illegalParameter
  | unexpectedMessage
  | handshakeFailure
  | unsupportedExt
deriving DecidableEq, Repr

/-- Error codes (`MBEDTLS_ERR_SSL_...`) returned by the code under study.
The numeric values live in headers outside the two source files, so the
errors are represented symbolically. -/
inductive SslError where
  | decodeError
  | handshakeFailure
  | illegalParameter
  | unexpectedMessage
  | badInputData
  | badConfig
  | featureUnavailable
  | sessionTicketExpired
  | internalError
deriving DecidableEq, Repr

/-- Result of a fallible parsing/processing routine: success with a value,
a fatal failure that pends an alert (`MBEDTLS_SSL_PEND_FATAL_ALERT`) and
returns an error, or a plain error return without an alert. -/
inductive ParseResult (α : Type) where
  | ok (a : α)
  | fatal (alert : AlertMsg) (e : SslError)
  | err (e : SslError)
deriving DecidableEq, Repr

deriving instance DecidableEq for Except

/-- Big-endian 16-bit read at offset `i` (`MBEDTLS_GET_UINT16_BE`). -/
def be16 (buf : List Nat) (i : Nat) : Nat :=
  buf.getD i 0 * 256 + buf.getD (i + 1) 0

/-- Big-endian 32-bit read at offset `i` (`MBEDTLS_GET_UINT32_BE`). -/
def be32 (buf : List Nat) (i : Nat) : Nat :=
  ((buf.getD i 0 * 256 + buf.getD (i + 1) 0) * 256 + buf.getD (i + 2) 0) * 256
    + buf.getD (i + 3) 0

/-! ## SHA-256 and SHA-384

Modelled from the spec (FIPS 180-4): the repository's message digests live
in `library/sha256.c` / `library/sha512.c`, outside the source files under
study, which invoke them through `ssl->handshake->update_checksum` and
`mbedtls_ssl_get_handshake_transcript`. -/

/-- Reduction modulo `2^32` (32-bit word arithmetic). -/
def u32 (x : Nat) : Nat := x % 4294967296

/-- Reduction modulo `2^64` (64-bit word arithmetic). -/
def u64 (x : Nat) : Nat := x % 18446744073709551616

/-- Right rotation of a 32-bit word. -/
def rotr32 (x n : Nat) : Nat := u32 ((x >>> n) ||| (x <<< (32 - n)))

/-- Right rotation of a 64-bit word. -/
def rotr64 (x n : Nat) : Nat := u64 ((x >>> n) ||| (x <<< (64 - n)))

def sha2Ch (x y z : Nat) : Nat := (x &&& y) ^^^ ((x ^^^ 18446744073709551615) &&& z)

def sha2Maj (x y z : Nat) : Nat := (x &&& y) ^^^ (x &&& z) ^^^ (y &&& z)

def bsig0_256 (x : Nat) : Nat := rotr32 x 2 ^^^ rotr32 x 13 ^^^ rotr32 x 22
def bsig1_256 (x : Nat) : Nat := rotr32 x 6 ^^^ rotr32 x 11 ^^^ rotr32 x 25
def ssig0_256 (x : Nat) : Nat := rotr32 x 7 ^^^ rotr32 x 18 ^^^ (x >>> 3)
def ssig1_256 (x : Nat) : Nat := rotr32 x 17 ^^^ rotr32 x 19 ^^^ (x >>> 10)

def bsig0_512 (x : Nat) : Nat := rotr64 x 28 ^^^ rotr64 x 34 ^^^ rotr64 x 39
def bsig1_512 (x : Nat) : Nat := rotr64 x 14 ^^^ rotr64 x 18 ^^^ rotr64 x 41
def ssig0_512 (x : Nat) : Nat := rotr64 x 1 ^^^ rotr64 x 8 ^^^ (x >>> 7)
def ssig1_512 (x : Nat) : Nat := rotr64 x 19 ^^^ rotr64 x 61 ^^^ (x >>> 6)

/-- SHA-256 round constants (FIPS 180-4, section 4.2.2). -/
def K256 : List Nat := [
  0x428A2F98, 0x71374491, 0xB5C0FBCF, 0xE9B5DBA5, 0x3956C25B, 0x59F111F1, 0x923F82A4, 0xAB1C5ED5,
  0xD807AA98, 0x12835B01, 0x243185BE, 0x550C7DC3, 0x72BE5D74, 0x80DEB1FE, 0x9BDC06A7, 0xC19BF174,
  0xE49B69C1, 0xEFBE4786, 0x0FC19DC6, 0x240CA1CC, 0x2DE92C6F, 0x4A7484AA, 0x5CB0A9DC, 0x76F988DA,
  0x983E5152, 0xA831C66D, 0xB00327C8, 0xBF597FC7, 0xC6E00BF3, 0xD5A79147, 0x06CA6351, 0x14292967,
  0x27B70A85, 0x2E1B2138, 0x4D2C6DFC, 0x53380D13, 0x650A7354, 0x766A0ABB, 0x81C2C92E, 0x92722C85,
  0xA2BFE8A1, 0xA81A664B, 0xC24B8B70, 0xC76C51A3, 0xD192E819, 0xD6990624, 0xF40E3585, 0x106AA070,
  0x19A4C116, 0x1E376C08, 0x2748774C, 0x34B0BCB5, 0x391C0CB3, 0x4ED8AA4A, 0x5B9CCA4F, 0x682E6FF3,
  0x748F82EE, 0x78A5636F, 0x84C87814, 0x8CC70208, 0x90BEFFFA, 0xA4506CEB, 0xBEF9A3F7, 0xC67178F2]

/-- SHA-256 initial hash value (FIPS 180-4, section 5.3.3). -/
def H256init : List Nat := [
  0x6A09E667, 0xBB67AE85, 0x3C6EF372, 0xA54FF53A, 0x510E527F, 0x9B05688C, 0x1F83D9AB, 0x5BE0CD19]

/-- SHA-384/SHA-512 round constants (FIPS 180-4, section 4.2.3). -/
def K512 : List Nat := [
  0x428A2F98D728AE22, 0x7137449123EF65CD, 0xB5C0FBCFEC4D3B2F, 0xE9B5DBA58189DBBC,
  0x3956C25BF348B538, 0x59F111F1B605D019, 0x923F82A4AF194F9B, 0xAB1C5ED5DA6D8118,
  0xD807AA98A3030242, 0x12835B0145706FBE, 0x243185BE4EE4B28C, 0x550C7DC3D5FFB4E2,
  0x72BE5D74F27B896F, 0x80DEB1FE3B1696B1, 0x9BDC06A725C71235, 0xC19BF174CF692694,
  0xE49B69C19EF14AD2, 0xEFBE4786384F25E3, 0x0FC19DC68B8CD5B5, 0x240CA1CC77AC9C65,
  0x2DE92C6F592B0275, 0x4A7484AA6EA6E483, 0x5CB0A9DCBD41FBD4, 0x76F988DA831153B5,
  0x983E5152EE66DFAB, 0xA831C66D2DB43210, 0xB00327C898FB213F, 0xBF597FC7BEEF0EE4,
  0xC6E00BF33DA88FC2, 0xD5A79147930AA725, 0x06CA6351E003826F, 0x142929670A0E6E70,
  0x27B70A8546D22FFC, 0x2E1B21385C26C926, 0x4D2C6DFC5AC42AED, 0x53380D139D95B3DF,
  0x650A73548BAF63DE, 0x766A0ABB3C77B2A8, 0x81C2C92E47EDAEE6, 0x92722C851482353B,
  0xA2BFE8A14CF10364, 0xA81A664BBC423001, 0xC24B8B70D0F89791, 0xC76C51A30654BE30,
  0xD192E819D6EF5218, 0xD69906245565A910, 0xF40E35855771202A, 0x106AA07032BBD1B8,
  0x19A4C116B8D2D0C8, 0x1E376C085141AB53, 0x2748774CDF8EEB99, 0x34B0BCB5E19B48A8,
  0x391C0CB3C5C95A63, 0x4ED8AA4AE3418ACB, 0x5B9CCA4F7763E373, 0x682E6FF3D6B2B8A3,
  0x748F82EE5DEFB2FC, 0x78A5636F43172F60, 0x84C87814A1F0AB72, 0x8CC702081A6439EC,
  0x90BEFFFA23631E28, 0xA4506CEBDE82BDE9, 0xBEF9A3F7B2C67915, 0xC67178F2E372532B,
  0xCA273ECEEA26619C, 0xD186B8C721C0C207, 0xEADA7DD6CDE0EB1E, 0xF57D4F7FEE6ED178,
  0x06F067AA72176FBA, 0x0A637DC5A2C898A6, 0x113F9804BEF90DAE, 0x1B710B35131C471B,
  0x28DB77F523047D84, 0x32CAAB7B40C72493, 0x3C9EBE0A15C9BEBC, 0x431D67C49C100D4C,
  0x4CC5D4BECB3E42B6, 0x597F299CFC657E2A, 0x5FCB6FAB3AD6FAEC, 0x6C44198C4A475817]

/-- SHA-384 initial hash value (FIPS 180-4, section 5.3.4). -/
def H384init : List Nat := [
  0xCBBB9D5DC1059ED8, 0x629A292A367CD507, 0x9159015A3070DD17, 0x152FECD8F70E5939,
  0x67332667FFC00B31, 0x8EB44A8768581511, 0xDB0C2E0D64F98FA7, 0x47B5481DBEFA4FA4]

/-- Group a byte list into big-endian 32-bit words. -/
def toWords32 : List Nat → List Nat
  | a :: b :: c :: d :: rest =>
      (((a * 256 + b) * 256 + c) * 256 + d) :: toWords32 rest
  | _ => []

/-- Group a byte list into big-endian 64-bit words. -/
def toWords64 : List Nat → List Nat
  | a :: b :: c :: d :: e :: f :: g :: h :: rest =>
      (((((((a * 256 + b) * 256 + c) * 256 + d) * 256 + e) * 256 + f) * 256 + g) * 256 + h)
        :: toWords64 rest
  | _ => []

/-- Next word of the SHA-256 message schedule, from the words so far. -/
def nextW256 (ws : List Nat) : Nat :=
  let n := ws.length
  u32 (ssig1_256 (ws.getD (n - 2) 0) + ws.getD (n - 7) 0
        + ssig0_256 (ws.getD (n - 15) 0) + ws.getD (n - 16) 0)

/-- Extend the SHA-256 message schedule by `k` words. -/
def extendW256 : List Nat → Nat → List Nat
  | ws, 0 => ws
  | ws, k + 1 => extendW256 (ws ++ [nextW256 ws]) k

/-- Next word of the SHA-512 message schedule, from the words so far. -/
def nextW512 (ws : List Nat) : Nat :=
  let n := ws.length
  u64 (ssig1_512 (ws.getD (n - 2) 0) + ws.getD (n - 7) 0
        + ssig0_512 (ws.getD (n - 15) 0) + ws.getD (n - 16) 0)

/-- Extend the SHA-512 message schedule by `k` words. -/
def extendW512 : List Nat → Nat → List Nat
  | ws, 0 => ws
  | ws, k + 1 => extendW512 (ws ++ [nextW512 ws]) k

/-- One SHA-256 round: update the eight working registers with a round
constant and a schedule word. -/
def round256 (st : List Nat) (kw : Nat × Nat) : List Nat :=
  let a := st.getD 0 0
  let b := st.getD 1 0
  let c := st.getD 2 0
  let d := st.getD 3 0
  let e := st.getD 4 0
  let f := st.getD 5 0
  let g := st.getD 6 0
  let h := st.getD 7 0
  let t1 := u32 (h + bsig1_256 e + sha2Ch e f g + kw.1 + kw.2)
  let t2 := u32 (bsig0_256 a + sha2Maj a b c)
  [u32 (t1 + t2), a, b, c, u32 (d + t1), e, f, g]

/-- One SHA-512 round. -/
def round512 (st : List Nat) (kw : Nat × Nat) : List Nat :=
  let a := st.getD 0 0
  let b := st.getD 1 0
  let c := st.getD 2 0
  let d := st.getD 3 0
  let e := st.getD 4 0
  let f := st.getD 5 0
  let g := st.getD 6 0
  let h := st.getD 7 0
  let t1 := u64 (h + bsig1_512 e + sha2Ch e f g + kw.1 + kw.2)
  let t2 := u64 (bsig0_512 a + sha2Maj a b c)
  [u64 (t1 + t2), a, b, c, u64 (d + t1), e, f, g]

/-- SHA-256 compression function on one 64-byte block. -/
def sha256Compress (h : List Nat) (block : List Nat) : List Nat :=
  let ws := extendW256 (toWords32 block) 48
  let st := (K256.zip ws).foldl round256 h
  [u32 (h.getD 0 0 + st.getD 0 0), u32 (h.getD 1 0 + st.getD 1 0),
   u32 (h.getD 2 0 + st.getD 2 0), u32 (h.getD 3 0 + st.getD 3 0),
   u32 (h.getD 4 0 + st.getD 4 0), u32 (h.getD 5 0 + st.getD 5 0),
   u32 (h.getD 6 0 + st.getD 6 0), u32 (h.getD 7 0 + st.getD 7 0)]

/-- SHA-512 compression function on one 128-byte block. -/
def sha512Compress (h : List Nat) (block : List Nat) : List Nat :=
  let ws := extendW512 (toWords64 block) 64
  let st := (K512.zip ws).foldl round512 h
  [u64 (h.getD 0 0 + st.getD 0 0), u64 (h.getD 1 0 + st.getD 1 0),
   u64 (h.getD 2 0 + st.getD 2 0), u64 (h.getD 3 0 + st.getD 3 0),
   u64 (h.getD 4 0 + st.getD 4 0), u64 (h.getD 5 0 + st.getD 5 0),
   u64 (h.getD 6 0 + st.getD 6 0), u64 (h.getD 7 0 + st.getD 7 0)]

/-- Big-endian bytes of a 32-bit word. -/
def wb32 (w : Nat) : List Nat :=
  [(w >>> 24) % 256, (w >>> 16) % 256, (w >>> 8) % 256, w % 256]

/-- Big-endian bytes of a 64-bit word. -/
def wb64 (w : Nat) : List Nat :=
  [(w >>> 56) % 256, (w >>> 48) % 256, (w >>> 40) % 256, (w >>> 32) % 256,
   (w >>> 24) % 256, (w >>> 16) % 256, (w >>> 8) % 256, w % 256]

/-- SHA-256 message padding for a message of `len` bytes. -/
def sha256Pad (len : Nat) : List Nat :=
  0x80 :: List.replicate ((119 - len % 64) % 64) 0 ++ wb64 (8 * len)

/-- SHA-384/SHA-512 message padding for a message of `len` bytes (the
128-bit length field is written as 16 bytes). -/
def sha512Pad (len : Nat) : List Nat :=
  0x80 :: List.replicate ((239 - len % 128) % 128) 0
    ++ wb64 ((8 * len) >>> 64) ++ wb64 (8 * len)

/-- Split a byte list into `n` chunks of `size` bytes. -/
def chunksOf (size : Nat) : Nat → List Nat → List (List Nat)
  | 0, _ => []
  | n + 1, bs => bs.take size :: chunksOf size n (bs.drop size)

/-- Modelled from the spec: the SHA-256 message digest (FIPS 180-4),
provided by `library/sha256.c` outside the source files under study. -/
def sha256 (msg : List Nat) : List Nat :=
  let padded := msg ++ sha256Pad msg.length
  let h := (chunksOf 64 (padded.length / 64) padded).foldl sha256Compress H256init
  wb32 (h.getD 0 0) ++ wb32 (h.getD 1 0) ++ wb32 (h.getD 2 0) ++ wb32 (h.getD 3 0)
    ++ wb32 (h.getD 4 0) ++ wb32 (h.getD 5 0) ++ wb32 (h.getD 6 0) ++ wb32 (h.getD 7 0)

/-- Modelled from the spec: the SHA-384 message digest (FIPS 180-4),
provided by `library/sha512.c` outside the source files under study.
SHA-384 runs the SHA-512 core with its own initial value and truncates
the result to the first six 64-bit words (48 bytes). -/
def sha384 (msg : List Nat) : List Nat :=
  let padded := msg ++ sha512Pad msg.length
  let h := (chunksOf 128 (padded.length / 128) padded).foldl sha512Compress H384init
  wb64 (h.getD 0 0) ++ wb64 (h.getD 1 0) ++ wb64 (h.getD 2 0)
    ++ wb64 (h.getD 3 0) ++ wb64 (h.getD 4 0) ++ wb64 (h.getD 5 0)

/-! ## Handshake transcript and its reset on HelloRetryRequest
(`mbedtls_ssl_reset_transcript_for_hrr`, `library/ssl_tls13_generic.c`) -/

/-- Message digest of the negotiated TLS 1.3 ciphersuite
(`ciphersuite_info->mac`); every TLS 1.3 ciphersuite uses SHA-256 or
SHA-384. -/
inductive HashAlg where
  | sha256
  | sha384
deriving DecidableEq, Repr

/-- Digest size (`mbedtls_hash_size_for_ciphersuite`, `Hash.len`). -/
def hashLen : HashAlg → Nat
  | .sha256 => 32
  | .sha384 => 48

/-- Digest computation for the negotiated hash. -/
def hashOf : HashAlg → List Nat → List Nat
  | .sha256, m => sha256 m
  | .sha384, m => sha384 m

/-- State of the running handshake transcript hash: the negotiated
digest and the bytes absorbed since the digest context was last
(re)started (`update_checksum` appends to these bytes;
`mbedtls_ssl_get_handshake_transcript` returns their digest). -/
structure TranscriptState where
  mac : HashAlg
  transcript : List Nat
deriving DecidableEq, Repr

/-- Modelled from the spec: `MBEDTLS_SSL_HS_MESSAGE_HASH`, the TLS
HandshakeType `message_hash` (RFC 8446), value 254; the constant is
defined in a header outside the source files under study. -/
def MBEDTLS_SSL_HS_MESSAGE_HASH : Nat := 254

/-- Embedding of `mbedtls_ssl_reset_transcript_for_hrr`
(`library/ssl_tls13_generic.c`, lines 2531-2593): compute the digest of
the transcript so far, restart the digest context, and absorb the
four-byte header `message_hash 00 00 hash_len` followed by that digest.
The `(unsigned char)` cast of `hash_len` is the reduction modulo 256. -/
def mbedtls_ssl_reset_transcript_for_hrr (s : TranscriptState) : TranscriptState :=
  let t := hashOf s.mac s.transcript
  { mac := s.mac,
    transcript := MBEDTLS_SSL_HS_MESSAGE_HASH :: 0 :: 0 :: (t.length % 256) :: t }

/-! ## Incoming Finished message
(`ssl_tls13_parse_finished_message`, `library/ssl_tls13_generic.c`) -/

/-- Modelled from the spec: `mbedtls_ct_memcmp` (`library/constant_time.c`,
outside the source files under study) compares two buffers of the same
length in constant time and returns zero exactly when all bytes are
equal. -/
def mbedtls_ct_memcmp (a b : List Nat) : Int :=
  if a = b then 0 else 1

/-- Embedding of `ssl_tls13_parse_finished_message`
(`library/ssl_tls13_generic.c`, lines 1065-1106).  `expected` is the
verify data precomputed by `ssl_tls13_preprocess_finished_message` via
`mbedtls_ssl_tls13_calculate_verify_data`
(HMAC(finished_key, Transcript-Hash) computed outside the source files
under study); `body` is the received Finished body `buf..end`. -/
def ssl_tls13_parse_finished_message (expected body : List Nat) : ParseResult Unit :=
  if body.length ≠ expected.length then
    .fatal .decodeError .decodeError
  else if mbedtls_ct_memcmp body expected ≠ 0 then
    .fatal .decryptError .handshakeFailure
  else
    .ok ()

/-! ## Key exchange mode after ServerHello
(`ssl_tls13_postprocess_server_hello`, `library/ssl_tls13_client.c`) -/

/-- TLS 1.3 key exchange modes
(`MBEDTLS_SSL_TLS1_3_KEY_EXCHANGE_MODE_...`). -/
inductive KeyExchangeMode where
  | psk
  | ephemeral
  | pskEphemeral
deriving DecidableEq, Repr

/-- Embedding of the key exchange mode determination of
`ssl_tls13_postprocess_server_hello` (`library/ssl_tls13_client.c`,
lines 1977-2015): the switch on
`extensions_present & (MBEDTLS_SSL_EXT_PRE_SHARED_KEY | MBEDTLS_SSL_EXT_KEY_SHARE)`
is the case split on which of the two extension bits are set; in the
default case the function returns `MBEDTLS_ERR_SSL_HANDSHAKE_FAILURE`,
and its cleanup section pends a fatal `handshake_failure` alert for any
nonzero return. -/
def ssl_tls13_postprocess_server_hello_kex_mode
    (pskPresent keySharePresent : Bool) : ParseResult KeyExchangeMode :=
  match pskPresent, keySharePresent with
  | true,  false => .ok .psk
  | false, true  => .ok .ephemeral
  | true,  true  => .ok .pskEphemeral
  | false, false => .fatal .handshakeFailure .handshakeFailure

/-! ## Early data status query
(`mbedtls_ssl_get_early_data_status`, `library/ssl_tls13_client.c`) -/

/-- Connection endpoint (`ssl->conf->endpoint`). -/
inductive Endpoint where
  | client
  | server
deriving DecidableEq, Repr

/-- Handshake state (`ssl->state`), abstracted to whether it equals
`MBEDTLS_SSL_HANDSHAKE_OVER`; `other n` stands for any state different
from `MBEDTLS_SSL_HANDSHAKE_OVER`. -/
inductive SslHsState where
  | handshakeOver
  | other (n : Nat)
deriving DecidableEq, Repr

/-- Embedding of `mbedtls_ssl_get_early_data_status`
(`library/ssl_tls13_client.c`, lines 1673-1682). -/
def mbedtls_ssl_get_early_data_status
    (state : SslHsState) (endpoint : Endpoint) (earlyDataStatus : Nat) :
    Except SslError Nat :=
  if state ≠ .handshakeOver then
    .error .badInputData
  else if endpoint = .server then
    .error .badInputData
  else
    .ok earlyDataStatus

/-! ## Obfuscated ticket age in the pre_shared_key extension
(`mbedtls_ssl_tls13_write_pre_shared_key_ext_without_binders`,
`library/ssl_tls13_client.c`, lines 892-922) -/

/-- Embedding of the obfuscated_ticket_age computation of
`mbedtls_ssl_tls13_write_pre_shared_key_ext_without_binders`
(`library/ssl_tls13_client.c`, lines 892-922).  `ticketAgeAdd` and
`ticketReceived` are the session fields; `now` is `time(NULL)`, or
`none` when the build has no wall clock (`MBEDTLS_HAVE_TIME` disabled),
in which case the whole block is compiled out and the field keeps its
initial value 0.  The `(uint32_t)` cast and the `uint32_t` addition are
the reductions modulo `2^32`.  On success the returned value is the
obfuscated_ticket_age written into the extension. -/
def pre_shared_key_obfuscated_ticket_age
    (ticketAgeAdd : Nat) (ticketReceived : Int) (now : Option Int) :
    Except SslError Nat :=
  if ticketAgeAdd > 0 then
    match now with
    | some t =>
        if ¬ (ticketReceived ≤ t ∧ t - ticketReceived < 7 * 86400 * 1000) then
          .error .sessionTicketExpired
        else
          .ok (((t - ticketReceived).toNat % 4294967296 + ticketAgeAdd) % 4294967296)
    | none => .ok 0
  else
    .ok 0

/-! ## ServerHello coordination: downgrade detection and HRR dispatch
(`ssl_tls13_is_supported_versions_ext_present`,
`ssl_tls13_is_downgrade_negotiation`, `ssl_server_hello_is_hrr`,
`ssl_tls13_server_hello_coordinate`, `library/ssl_tls13_client.c`;
the non-MPS variants are embedded).  The ServerHello body layout is
2 bytes legacy_version, 32 bytes random (`MBEDTLS_SERVER_HELLO_RANDOM_LEN`),
1 byte session-id-echo length, the echo, 2 bytes cipher suite, 1 byte
compression, then the extension block. -/

/-- First seven bytes of the RFC 8446 downgrade sentinels
(`magic_downgrade_string`, `library/ssl_tls13_client.c`). -/
def magic_downgrade_string : List Nat := [0x44, 0x4F, 0x57, 0x4E, 0x47, 0x52, 0x44]

/-- The HelloRetryRequest magic random, SHA-256 of "HelloRetryRequest"
(`magic_hrr_string`, `library/ssl_tls13_client.c`). -/
def magic_hrr_string : List Nat :=
  [0xCF, 0x21, 0xAD, 0x74, 0xE5, 0x9A, 0x61, 0x11,
   0xBE, 0x1D, 0x8C, 0x02, 0x1E, 0x65, 0xB8, 0x91,
   0xC2, 0xA2, 0x11, 0x16, 0x7A, 0xBB, 0x8C, 0x5E,
   0x07, 0x9E, 0x09, 0xE2, 0xC8, 0xA8, 0x33, 0x9C]

/-- Modelled from the spec: `MBEDTLS_TLS_EXT_SUPPORTED_VERSIONS`, the
IANA extension number 43 of supported_versions (RFC 8446); the constant
is defined in a header outside the source files under study. -/
def MBEDTLS_TLS_EXT_SUPPORTED_VERSIONS : Nat := 43

/-- Modelled from the spec: `MBEDTLS_TLS_EXT_EARLY_DATA`, the IANA
extension number 42 of early_data (RFC 8446); the constant is defined
in a header outside the source files under study. -/
def MBEDTLS_TLS_EXT_EARLY_DATA : Nat := 42

/-- Modelled from the spec: `MBEDTLS_SSL_VERSION_TLS1_2`, the enum value
of TLS 1.2 (the wire version 0x0303); defined in a header outside the
source files under study.  Only its ordering against later versions
matters here. -/
def MBEDTLS_SSL_VERSION_TLS1_2 : Nat := 0x0303

/-- Embedding of `ssl_tls13_is_downgrade_negotiation`
(`library/ssl_tls13_client.c`, lines 1180-1203): requires at least
`2 + MBEDTLS_SERVER_HELLO_RANDOM_LEN` bytes (`MBEDTLS_SSL_CHK_BUF_READ_PTR`
pends a fatal `decode_error` alert otherwise), then compares the seven
bytes at offsets 26-32 (the start of the last eight bytes of the random)
with the magic string and, on a match, reports whether the last random
byte is 0 or 1. -/
def ssl_tls13_is_downgrade_negotiation (buf : List Nat) : ParseResult Bool :=
  if buf.length < 34 then
    .fatal .decodeError .decodeError
  else if (buf.drop 26).take 7 = magic_downgrade_string then
    .ok (buf.getD 33 0 == 0 || buf.getD 33 0 == 1)
  else
    .ok false

/-- Extension-block loop of `ssl_tls13_is_supported_versions_ext_present`
(`library/ssl_tls13_client.c`, lines 1155-1171): scan extension headers
between offsets `p` and `extsEnd`, reporting whether a
supported_versions extension occurs. -/
def scan_for_supported_versions (buf : List Nat) (extsEnd p : Nat) : ParseResult Bool :=
  if h : p < extsEnd then
    if extsEnd < p + 4 then
      .fatal .decodeError .decodeError
    else
      let extType := be16 buf p
      let extDataLen := be16 buf (p + 2)
      if extType = MBEDTLS_TLS_EXT_SUPPORTED_VERSIONS then
        .ok true
      else if extsEnd < p + 4 + extDataLen then
        .fatal .decodeError .decodeError
      else
        scan_for_supported_versions buf extsEnd (p + 4 + extDataLen)
  else
    .ok false
termination_by extsEnd - p
decreasing_by omega

/-- Embedding of `ssl_tls13_is_supported_versions_ext_present`
(`library/ssl_tls13_client.c`, lines 1106-1173): skip the fixed
ServerHello fields and the session-id echo, then scan the extension
block for a supported_versions extension.  All
`MBEDTLS_SSL_CHK_BUF_READ_PTR` failures pend a fatal `decode_error`
alert. -/
def ssl_tls13_is_supported_versions_ext_present (buf : List Nat) : ParseResult Bool :=
  if buf.length < 35 then
    .fatal .decodeError .decodeError
  else
    let sidLen := buf.getD 34 0
    let p := 38 + sidLen
    if p = buf.length then
      .ok false
    else if buf.length < p + 2 then
      .fatal .decodeError .decodeError
    else
      let extsLen := be16 buf p
      if buf.length < p + 2 + extsLen then
        .fatal .decodeError .decodeError
      else
        scan_for_supported_versions buf (p + 2 + extsLen) (p + 2)

/-- The three outcomes `SSL_SERVER_HELLO_COORDINATE_HELLO` / `_HRR` /
`_TLS1_2` of the ServerHello coordination. -/
inductive ServerHelloKind where
  | hello
  | hrr
  | tls12
deriving DecidableEq, Repr

/-- Embedding of `ssl_server_hello_is_hrr`
(`library/ssl_tls13_client.c`, lines 1212-1245): a ServerHello whose
32-byte random equals the HRR magic value is a HelloRetryRequest. -/
def ssl_server_hello_is_hrr (buf : List Nat) : ParseResult ServerHelloKind :=
  if buf.length < 34 then
    .fatal .decodeError .decodeError
  else if (buf.drop 2).take 32 = magic_hrr_string then
    .ok .hrr
  else
    .ok .hello

/-- Embedding of the message-classification part of
`ssl_tls13_server_hello_coordinate` (non-MPS variant,
`library/ssl_tls13_client.c`, lines 1376-1471), after the handshake
message has been fetched into `buf`.  `minTlsVersion` is
`ssl->handshake->min_tls_version`, `someEphemeralEnabled` is
`mbedtls_ssl_conf_tls13_some_ephemeral_enabled( ssl )`, and
`helloRetryRequestCount` is `ssl->handshake->hello_retry_request_count`.
The bookkeeping on the accepting paths (checksum update, key-share
reset, counter increment) does not affect the returned classification
and is not modelled. -/
def ssl_tls13_server_hello_coordinate
    (buf : List Nat) (minTlsVersion : Nat) (someEphemeralEnabled : Bool)
    (helloRetryRequestCount : Nat) : ParseResult ServerHelloKind :=
  match ssl_tls13_is_supported_versions_ext_present buf with
  | .fatal a e => .fatal a e
  | .err e => .err e
  | .ok false =>
    match ssl_tls13_is_downgrade_negotiation buf with
    | .fatal a e => .fatal a e
    | .err e => .err e
    | .ok downgrade =>
      if decide (MBEDTLS_SSL_VERSION_TLS1_2 < minTlsVersion) || downgrade then
        .fatal .illegalParameter .illegalParameter
      else
        .ok .tls12
  | .ok true =>
    match ssl_server_hello_is_hrr buf with
    | .fatal a e => .fatal a e
    | .err e => .err e
    | .ok .hrr =>
      if helloRetryRequestCount > 0 then
        .fatal .unexpectedMessage .unexpectedMessage
      else if !someEphemeralEnabled then
        .fatal .illegalParameter .illegalParameter
      else
        .ok .hrr
    | .ok k => .ok k

/-! ## key_share extension of a HelloRetryRequest
(`ssl_tls13_parse_hrr_key_share_ext`, `library/ssl_tls13_client.c`,
lines 473-533) -/

/-- The `for( ; *group_list != 0; group_list++ )` loop of
`ssl_tls13_parse_hrr_key_share_ext`: walk the configured group list up
to its 0 terminator and report whether some entry is a known curve
(`mbedtls_ecp_curve_info_from_tls_id` non-NULL) whose TLS id equals the
selected group. -/
def hrr_key_share_group_found (knownCurveTlsIds : List Nat) (selectedGroup : Nat) :
    List Nat → Bool
  | [] => false
  | g :: rest =>
    if g = 0 then false
    else if knownCurveTlsIds.contains g && g == selectedGroup then true
    else hrr_key_share_group_found knownCurveTlsIds selectedGroup rest

/-- Embedding of `ssl_tls13_parse_hrr_key_share_ext`
(`library/ssl_tls13_client.c`, lines 473-533).  `knownCurveTlsIds` is
the set of TLS ids with curve info in the ECP curve table
(`mbedtls_ecp_curve_info_from_tls_id`, outside the source files under
study, returns the entry whose `tls_id` field equals its argument, or
NULL); `groupList` is `mbedtls_ssl_get_groups( ssl )` (`none` for NULL);
`offeredGroupId` is `ssl->handshake->offered_group_id`.  On success the
returned group is the new `offered_group_id`. -/
def ssl_tls13_parse_hrr_key_share_ext
    (knownCurveTlsIds : List Nat) (groupList : Option (List Nat))
    (offeredGroupId : Nat) (buf : List Nat) : ParseResult Nat :=
  match groupList with
  | none => .err .badConfig
  | some gl =>
    if buf.length < 2 then
      .fatal .decodeError .decodeError
    else
      let selectedGroup := be16 buf 0
      if !hrr_key_share_group_found knownCurveTlsIds selectedGroup gl
          || selectedGroup == offeredGroupId then
        .fatal .illegalParameter .illegalParameter
      else
        .ok selectedGroup

/-- The client's configured groups: the prefix of the group list before
its 0 terminator. -/
def configuredGroups (gl : List Nat) : List Nat :=
  gl.takeWhile (fun g => g != 0)

/-! ## NewSessionTicket parsing
(`ssl_tls13_new_session_ticket_parse`,
`ssl_tls13_new_session_ticket_extensions_parse`,
`library/ssl_tls13_client.c`) -/

/-- Embedding of `ssl_tls13_new_session_ticket_extensions_parse`
(`library/ssl_tls13_client.c`, lines 3185-3231) together with
`ssl_tls13_new_session_ticket_early_data_ext_parse`: walk the ticket
extension block; an early_data extension must carry exactly a 4-byte
`max_early_data_size`, which is recorded; other extensions are
ignored. -/
def ssl_tls13_new_session_ticket_extensions_parse
    (bs : List Nat) (maxEarlyDataSize : Option Nat) : Except SslError (Option Nat) :=
  if bs.length = 0 then
    .ok maxEarlyDataSize
  else if bs.length < 4 then
    .error .badInputData
  else
    let extId := be16 bs 0
    let extSize := be16 bs 2
    if extSize > bs.length - 4 then
      .error .badInputData
    else if extId = MBEDTLS_TLS_EXT_EARLY_DATA then
      if extSize = 4 then
        ssl_tls13_new_session_ticket_extensions_parse (bs.drop (4 + extSize))
          (some (be32 bs 4))
      else
        .error .badInputData
    else
      ssl_tls13_new_session_ticket_extensions_parse (bs.drop (4 + extSize))
        maxEarlyDataSize
termination_by bs.length
decreasing_by all_goals (simp [List.length_drop]; omega)

/-- Session fields stored by a successful NewSessionTicket parse. -/
structure NstSession where
  ticketLifetime : Nat
  ticketAgeAdd : Nat
  nonce : List Nat
  ticket : List Nat
  key : List Nat
  keyLen : Nat
  maxEarlyDataSize : Option Nat
deriving DecidableEq, Repr

/-- The label bytes of "resumption". -/
def resumptionLabel : List Nat :=
  [0x72, 0x65, 0x73, 0x75, 0x6d, 0x70, 0x74, 0x69, 0x6f, 0x6e]

/-- Embedding of `ssl_tls13_new_session_ticket_parse`
(`library/ssl_tls13_client.c`, lines 3233-3422).  `hkdfExpandLabel`
abstracts `mbedtls_ssl_tls13_hkdf_expand_label` (`library/ssl_tls13_keys.c`,
outside the source files under study), taking the hash, the secret, the
label, the context and the requested output length; `mac` is the hash of
the negotiated ciphersuite (`ssl->session->ciphersuite`), `rms` the
resumption master secret.  Allocation failure and the
`MBEDTLS_MD_MAX_SIZE` nonce bound (dead for one-byte lengths) are not
reachable in the model; the ticket-received timestamp is not modelled. -/
def ssl_tls13_new_session_ticket_parse
    (hkdfExpandLabel : HashAlg → List Nat → List Nat → List Nat → Nat → List Nat)
    (mac : HashAlg) (rms : List Nat) (buf : List Nat) :
    Except SslError NstSession :=
  if buf.length < 13 then
    .error .decodeError
  else
    let lifetime := be32 buf 0
    let ageAdd := be32 buf 4
    let nonceLen := buf.getD 8 0
    if buf.length < 13 + nonceLen then
      .error .decodeError
    else
      let nonce := (buf.drop 9).take nonceLen
      let i1 := 9 + nonceLen
      let ticketLen := be16 buf i1
      if buf.length < 13 + nonceLen + ticketLen then
        .error .decodeError
      else
        let ticket := (buf.drop (i1 + 2)).take ticketLen
        let i2 := i1 + 2 + ticketLen
        let extLen := be16 buf i2
        if 13 + nonceLen + ticketLen + extLen ≠ buf.length then
          .error .decodeError
        else
          match ssl_tls13_new_session_ticket_extensions_parse
                  ((buf.drop (i2 + 2)).take extLen) none with
          | .error e => .error e
          | .ok maxEd =>
            let hlen := hashLen mac
            .ok { ticketLifetime := lifetime, ticketAgeAdd := ageAdd,
                  nonce := nonce, ticket := ticket,
                  key := hkdfExpandLabel mac rms resumptionLabel nonce hlen,
                  keyLen := hlen, maxEarlyDataSize := maxEd }

set_option maxRecDepth 100000 in
/-- FIPS 180-4 test vector: SHA-256 of the empty message. -/
theorem sha256_empty_test_vector :
    sha256 [] =
      [0xe3, 0xb0, 0xc4, 0x42, 0x98, 0xfc, 0x1c, 0x14, 0x9a, 0xfb, 0xf4, 0xc8,
       0x99, 0x6f, 0xb9, 0x24, 0x27, 0xae, 0x41, 0xe4, 0x64, 0x9b, 0x93, 0x4c,
       0xa4, 0x95, 0x99, 0x1b, 0x78, 0x52, 0xb8, 0x55] := by
  decide

set_option maxRecDepth 100000 in
/-- FIPS 180-4 test vector: SHA-256 of "abc". -/
theorem sha256_abc_test_vector :
    sha256 [0x61, 0x62, 0x63] =
      [0xba, 0x78, 0x16, 0xbf, 0x8f, 0x01, 0xcf, 0xea, 0x41, 0x41, 0x40, 0xde,
       0x5d, 0xae, 0x22, 0x23, 0xb0, 0x03, 0x61, 0xa3, 0x96, 0x17, 0x7a, 0x9c,
       0xb4, 0x10, 0xff, 0x61, 0xf2, 0x00, 0x15, 0xad] := by
  decide

set_option maxRecDepth 100000 in
/-- FIPS 180-4 test vector: SHA-384 of "abc". -/
theorem sha384_abc_test_vector :
    sha384 [0x61, 0x62, 0x63] =
      [0xcb, 0x00, 0x75, 0x3f, 0x45, 0xa3, 0x5e, 0x8b, 0xb5, 0xa0, 0x3d, 0x69,
       0x9a, 0xc6, 0x50, 0x07, 0x27, 0x2c, 0x32, 0xab, 0x0e, 0xde, 0xd1, 0x63,
       0x1a, 0x8b, 0x60, 0x5a, 0x43, 0xff, 0x5b, 0xed, 0x80, 0x86, 0x07, 0x2b,
       0xa1, 0xe7, 0xcc, 0x23, 0x58, 0xba, 0xec, 0xa1, 0x34, 0xc8, 0x25, 0xa7] := by
  decide

/-! ## Supporting lemmas -/

theorem sha256_length (msg : List Nat) : (sha256 msg).length = 32 := by
  simp [sha256, wb32]

theorem sha384_length (msg : List Nat) : (sha384 msg).length = 48 := by
  simp [sha384, wb64]

@[simp] theorem hashOf_length (m : HashAlg) (x : List Nat) :
    (hashOf m x).length = hashLen m := by
  cases m <;> simp [hashOf, hashLen, sha256_length, sha384_length]

/-! ## Claim theorems -/

/-- C3: upon receiving a HelloRetryRequest, before the HRR message itself
is folded into the transcript, `mbedtls_ssl_reset_transcript_for_hrr`
replaces the transcript hash state by a fresh hash seeded with the
four-byte header `message_hash 0x00 0x00 Hash.len` followed by the hash
of the prior transcript: Transcript-Hash(X) becomes
Transcript-Hash(message_hash || 00 00 Hash.length || Hash(X)). -/
theorem tls13_hrr_transcript_reset_formula (s : TranscriptState) :
    (mbedtls_ssl_reset_transcript_for_hrr s).mac = s.mac ∧
    (mbedtls_ssl_reset_transcript_for_hrr s).transcript =
      MBEDTLS_SSL_HS_MESSAGE_HASH :: 0 :: 0 :: hashLen s.mac ::
        hashOf s.mac s.transcript := by
  refine ⟨rfl, ?_⟩
  simp only [mbedtls_ssl_reset_transcript_for_hrr, hashOf_length]
  cases s.mac <;> rfl

/-- C4 (amended): the HRR transcript reset applied twice equals the reset
applied once exactly when the negotiated hash of the once-reset
transcript equals the hash of the original transcript; it is not
idempotent in general. -/
theorem tls13_hrr_transcript_reset_idempotent_iff (s : TranscriptState) :
    mbedtls_ssl_reset_transcript_for_hrr (mbedtls_ssl_reset_transcript_for_hrr s) =
        mbedtls_ssl_reset_transcript_for_hrr s ↔
      hashOf s.mac (mbedtls_ssl_reset_transcript_for_hrr s).transcript =
        hashOf s.mac s.transcript := by
  obtain ⟨mac, t⟩ := s
  simp [mbedtls_ssl_reset_transcript_for_hrr, TranscriptState.mk.injEq, hashOf_length]

/-- Concrete transcript state over SHA-256 witnessing that the HRR reset
is not idempotent: the empty transcript. -/
def hrr_reset_cex_state : TranscriptState := { mac := .sha256, transcript := [] }

set_option maxRecDepth 100000 in
/-- C4 counterexample: on the empty SHA-256 transcript, applying
`mbedtls_ssl_reset_transcript_for_hrr` twice does not produce the same
transcript state as applying it once. -/
theorem tls13_hrr_transcript_reset_not_idempotent :
    mbedtls_ssl_reset_transcript_for_hrr
        (mbedtls_ssl_reset_transcript_for_hrr hrr_reset_cex_state) ≠
      mbedtls_ssl_reset_transcript_for_hrr hrr_reset_cex_state := by
  decide

/-- C1: the incoming Finished message is accepted exactly when its body
length equals the length of the expected verify data (the digest-length
HMAC precomputed by the preprocessing step) and its bytes compare equal
to it; a length mismatch is a fatal `decode_error` rejection and a
content mismatch a fatal rejection with a `decrypt_error` alert. -/
theorem tls13_finished_message_verification (expected body : List Nat) :
    (ssl_tls13_parse_finished_message expected body = .ok () ↔ body = expected) ∧
    (body.length ≠ expected.length →
      ssl_tls13_parse_finished_message expected body = .fatal .decodeError .decodeError) ∧
    (body.length = expected.length → body ≠ expected →
      ssl_tls13_parse_finished_message expected body =
        .fatal .decryptError .handshakeFailure) := by
  by_cases hl : body.length = expected.length
  · by_cases he : body = expected
    · simp [ssl_tls13_parse_finished_message, mbedtls_ct_memcmp, hl, he]
    · simp [ssl_tls13_parse_finished_message, mbedtls_ct_memcmp, hl, he]
  · have he : body ≠ expected := fun h => hl (by rw [h])
    simp [ssl_tls13_parse_finished_message, mbedtls_ct_memcmp, hl, he]

/-- C1 witness: a Finished body one byte short of the 2-byte expected
verify data is rejected `decode_error`; an equal-length body differing
in one byte is rejected with alert `decrypt_error`; the exact body is
accepted. -/
theorem tls13_finished_message_verification_witness :
    ssl_tls13_parse_finished_message [1, 2] [1] = .fatal .decodeError .decodeError ∧
    ssl_tls13_parse_finished_message [1, 2] [1, 3] =
      .fatal .decryptError .handshakeFailure ∧
    ssl_tls13_parse_finished_message [1, 2] [1, 2] = .ok () :=
  ⟨(tls13_finished_message_verification [1, 2] [1]).2.1 (by decide),
   (tls13_finished_message_verification [1, 2] [1, 3]).2.2 (by decide) (by decide),
   (tls13_finished_message_verification [1, 2] [1, 2]).1.mpr (by decide)⟩

/-- C2: after a non-HRR ServerHello, the key exchange mode is determined
exactly by which of the pre_shared_key and key_share extensions were
present: pre_shared_key only gives PSK-only, key_share only gives
ephemeral, both give PSK-ephemeral, and neither is a fatal
`handshake_failure`. -/
theorem tls13_server_hello_key_exchange_mode_table :
    ssl_tls13_postprocess_server_hello_kex_mode true false = .ok .psk ∧
    ssl_tls13_postprocess_server_hello_kex_mode false true = .ok .ephemeral ∧
    ssl_tls13_postprocess_server_hello_kex_mode true true = .ok .pskEphemeral ∧
    ssl_tls13_postprocess_server_hello_kex_mode false false =
      .fatal .handshakeFailure .handshakeFailure := by
  decide

/-- C10: `mbedtls_ssl_get_early_data_status` returns the bad-input-data
error exactly when the handshake state is not `HANDSHAKE_OVER` or the
endpoint is a server, and reports the recorded status only for a client
whose handshake has completed. -/
theorem tls13_early_data_status_guard
    (state : SslHsState) (endpoint : Endpoint) (earlyDataStatus : Nat) :
    (mbedtls_ssl_get_early_data_status state endpoint earlyDataStatus =
        .error .badInputData ↔ state ≠ .handshakeOver ∨ endpoint = .server) ∧
    (state = .handshakeOver → endpoint = .client →
      mbedtls_ssl_get_early_data_status state endpoint earlyDataStatus =
        .ok earlyDataStatus) := by
  cases state <;> cases endpoint <;>
    simp [mbedtls_ssl_get_early_data_status]

/-- C10 witness: a client with completed handshake gets its recorded
status; a server and an in-handshake client get the error. -/
theorem tls13_early_data_status_guard_witness :
    mbedtls_ssl_get_early_data_status .handshakeOver .client 1 = .ok 1 ∧
    mbedtls_ssl_get_early_data_status .handshakeOver .server 1 =
      .error .badInputData ∧
    mbedtls_ssl_get_early_data_status (.other 0) .client 1 =
      .error .badInputData :=
  ⟨(tls13_early_data_status_guard .handshakeOver .client 1).2 rfl rfl,
   (tls13_early_data_status_guard .handshakeOver .server 1).1.mpr (by decide),
   (tls13_early_data_status_guard (.other 0) .client 1).1.mpr (by decide)⟩

/-- C8 (code evaluated at the failing input): a ticket received at time 0
and offered at time 604801 — one second past seven days = 604800 seconds
— is still offered with obfuscated age 604802, because the code compares
the age in seconds against `7 * 86400 * 1000` (seven days expressed in
milliseconds); expiry only sets in at 604800000 seconds. -/
theorem tls13_ticket_age_seven_day_threshold :
    pre_shared_key_obfuscated_ticket_age 1 0 (some 604801) = .ok 604802 ∧
    pre_shared_key_obfuscated_ticket_age 1 0 (some 604800000) =
      .error .sessionTicketExpired ∧
    pre_shared_key_obfuscated_ticket_age 1 0 none = .ok 0 := by
  decide

/-- C5: a ServerHello whose random ends in the downgrade sentinel
"DOWNGRD" followed by 0x00 or 0x01 and which contains no
supported_versions extension is rejected by the ServerHello coordination
with a fatal `illegal_parameter` alert, whatever the configured minimum
version, ephemeral configuration and HRR count. -/
theorem tls13_downgrade_sentinel_rejected
    (buf : List Nat) (minTlsVersion : Nat) (someEphemeralEnabled : Bool)
    (helloRetryRequestCount : Nat)
    (hlen : 34 ≤ buf.length)
    (hmagic : (buf.drop 26).take 7 = magic_downgrade_string)
    (hlast : buf.getD 33 0 = 0 ∨ buf.getD 33 0 = 1)
    (hext : ssl_tls13_is_supported_versions_ext_present buf = .ok false) :
    ssl_tls13_server_hello_coordinate buf minTlsVersion someEphemeralEnabled
        helloRetryRequestCount = .fatal .illegalParameter .illegalParameter := by
  have hdg : ssl_tls13_is_downgrade_negotiation buf = .ok true := by
    unfold ssl_tls13_is_downgrade_negotiation
    rw [if_neg (by omega), if_pos hmagic]
    rcases hlast with h | h <;> rw [h] <;> rfl
  unfold ssl_tls13_server_hello_coordinate
  rw [hext, hdg]
  simp

/-- ServerHello of 38 bytes with empty session-id echo, no extension
block, and random ending in "DOWNGRD" 0x01. -/
def downgrade_cex_buf : List Nat :=
  [3, 3, 0, 0, 0, 0, 0, 0, 0, 0, 0, 0, 0, 0, 0, 0, 0, 0, 0, 0, 0, 0, 0, 0, 0, 0,
   0x44, 0x4F, 0x57, 0x4E, 0x47, 0x52, 0x44, 1, 0, 0x13, 0x01, 0]

/-- C5 witness: the concrete downgrade ServerHello is rejected with
`illegal_parameter`. -/
theorem tls13_downgrade_sentinel_rejected_witness :
    ssl_tls13_server_hello_coordinate downgrade_cex_buf 0x0303 true 0 =
      .fatal .illegalParameter .illegalParameter :=
  tls13_downgrade_sentinel_rejected downgrade_cex_buf 0x0303 true 0
    (by decide) (by decide) (by decide) (by decide)

/-- C7: a HelloRetryRequest received while
`hello_retry_request_count` is already positive is rejected by the
ServerHello coordination with a fatal `unexpected_message` alert. -/
theorem tls13_second_hrr_rejected
    (buf : List Nat) (minTlsVersion : Nat) (someEphemeralEnabled : Bool)
    (helloRetryRequestCount : Nat)
    (hlen : 34 ≤ buf.length)
    (hhrr : (buf.drop 2).take 32 = magic_hrr_string)
    (hext : ssl_tls13_is_supported_versions_ext_present buf = .ok true)
    (hcnt : 0 < helloRetryRequestCount) :
    ssl_tls13_server_hello_coordinate buf minTlsVersion someEphemeralEnabled
        helloRetryRequestCount = .fatal .unexpectedMessage .unexpectedMessage := by
  have hh : ssl_server_hello_is_hrr buf = .ok .hrr := by
    unfold ssl_server_hello_is_hrr
    rw [if_neg (by omega), if_pos hhrr]
  unfold ssl_tls13_server_hello_coordinate
  rw [hext, hh]
  simp [hcnt]

/-- HelloRetryRequest of 46 bytes: HRR magic random, empty session-id
echo, and a supported_versions extension carrying 0x0304. -/
def second_hrr_cex_buf : List Nat :=
  [3, 3] ++ magic_hrr_string ++ [0, 0x13, 0x01, 0, 0, 6, 0, 43, 0, 2, 3, 4]

/-- C7 witness: the concrete HelloRetryRequest is rejected with
`unexpected_message` once a prior HRR has been counted. -/
theorem tls13_second_hrr_rejected_witness :
    ssl_tls13_server_hello_coordinate second_hrr_cex_buf 0x0303 true 1 =
      .fatal .unexpectedMessage .unexpectedMessage :=
  tls13_second_hrr_rejected second_hrr_cex_buf 0x0303 true 1
    (by decide) (by decide)
    (by simp [ssl_tls13_is_supported_versions_ext_present,
          scan_for_supported_versions, second_hrr_cex_buf, magic_hrr_string,
          be16, MBEDTLS_TLS_EXT_SUPPORTED_VERSIONS])
    (by decide)

/-- When every configured group is a known curve, the group-list loop of
`ssl_tls13_parse_hrr_key_share_ext` finds the selected group exactly
when it is among the configured groups (the list up to its 0
terminator). -/
theorem hrr_key_share_group_found_iff
    (known : List Nat) (sel : Nat) (gl : List Nat)
    (hknown : ∀ g ∈ gl, g ∈ known) :
    hrr_key_share_group_found known sel gl = true ↔ sel ∈ configuredGroups gl := by
  induction gl with
  | nil => simp [hrr_key_share_group_found, configuredGroups]
  | cons g rest ih =>
    have hg : g ∈ known := hknown g (List.mem_cons_self g rest)
    have hrest : ∀ x ∈ rest, x ∈ known := fun x hx => hknown x (List.mem_cons_of_mem _ hx)
    by_cases h0 : g = 0
    · subst h0
      simp [hrr_key_share_group_found, configuredGroups]
    · by_cases hsel : g = sel
      · subst hsel
        simp [hrr_key_share_group_found, configuredGroups, h0, hg]
      · simp [hrr_key_share_group_found, configuredGroups, h0, hsel, ih hrest,
              Ne.symm hsel]

/-- C6: parsing the key_share extension of a HelloRetryRequest rejects,
with a fatal `illegal_parameter` alert, any selected group that is not
among the client's configured groups or that equals the group the client
already provided a key share for (`offered_group_id`); otherwise it
records the selected group as the offered group for the next
ClientHello.  Stated for configurations whose group list holds known
curves (entries with ECP curve info). -/
theorem tls13_hrr_key_share_selection
    (knownCurveTlsIds gl : List Nat) (offeredGroupId : Nat) (buf : List Nat)
    (hlen : 2 ≤ buf.length)
    (hknown : ∀ g ∈ gl, g ∈ knownCurveTlsIds) :
    (be16 buf 0 ∉ configuredGroups gl ∨ be16 buf 0 = offeredGroupId →
      ssl_tls13_parse_hrr_key_share_ext knownCurveTlsIds (some gl) offeredGroupId buf =
        .fatal .illegalParameter .illegalParameter) ∧
    (be16 buf 0 ∈ configuredGroups gl → be16 buf 0 ≠ offeredGroupId →
      ssl_tls13_parse_hrr_key_share_ext knownCurveTlsIds (some gl) offeredGroupId buf =
        .ok (be16 buf 0)) := by
  have hfound := hrr_key_share_group_found_iff knownCurveTlsIds (be16 buf 0) gl hknown
  have hl2 : ¬ (buf.length < 2) := by omega
  constructor
  · rintro (h | h)
    · have hf : hrr_key_share_group_found knownCurveTlsIds (be16 buf 0) gl = false := by
        cases hb : hrr_key_share_group_found knownCurveTlsIds (be16 buf 0) gl
        · rfl
        · exact absurd (hfound.mp hb) h
      simp [ssl_tls13_parse_hrr_key_share_ext, hl2, hf]
    · simp [ssl_tls13_parse_hrr_key_share_ext, hl2, h]
  · intro hmem hne
    have hf : hrr_key_share_group_found knownCurveTlsIds (be16 buf 0) gl = true :=
      hfound.mpr hmem
    simp [ssl_tls13_parse_hrr_key_share_ext, hl2, hf, hne]

/-- C6 witness: with known curves 23, 24, 25, configured groups 23 and
24, and a share already offered for group 23, an HRR selecting group 24
is accepted and 24 becomes the offered group. -/
theorem tls13_hrr_key_share_selection_witness :
    ssl_tls13_parse_hrr_key_share_ext [23, 24, 25] (some [23, 24]) 23 [0, 24] =
      .ok (be16 [0, 24] 0) :=
  (tls13_hrr_key_share_selection [23, 24, 25] [23, 24] 23 [0, 24]
      (by decide) (by decide)).2 (by decide) (by decide)

/-- C9: whenever `ssl_tls13_new_session_ticket_parse` succeeds, the
stored resumption PSK is
HKDF-Expand-Label(resumption_master_secret, "resumption", ticket_nonce,
Hash.len), requested and recorded with length Hash.len for the hash of
the negotiated ciphersuite. -/
theorem tls13_new_session_ticket_resumption_psk
    (hkdfExpandLabel : HashAlg → List Nat → List Nat → List Nat → Nat → List Nat)
    (mac : HashAlg) (rms buf : List Nat) (r : NstSession)
    (h : ssl_tls13_new_session_ticket_parse hkdfExpandLabel mac rms buf = .ok r) :
    r.key = hkdfExpandLabel mac rms resumptionLabel r.nonce (hashLen mac) ∧
    r.keyLen = hashLen mac := by
  unfold ssl_tls13_new_session_ticket_parse at h
  simp only [] at h
  repeat' split at h
  any_goals exact Except.noConfusion h
  injection h with h2
  subst h2
  exact ⟨rfl, rfl⟩

/-- HKDF-Expand-Label instance used by the C9 witness. -/
def nst_cex_hkdf : HashAlg → List Nat → List Nat → List Nat → Nat → List Nat :=
  fun _ _ _ _ n => List.replicate n 9

/-- NewSessionTicket body of the C9 witness: lifetime 10, age-add 5,
1-byte nonce 7, 1-byte ticket 9, no extensions. -/
def nst_cex_buf : List Nat := [0, 0, 0, 10, 0, 0, 0, 5, 1, 7, 0, 1, 9, 0, 0]

/-- Session stored by parsing the C9 witness ticket. -/
def nst_cex_session : NstSession :=
  { ticketLifetime := 10, ticketAgeAdd := 5, nonce := [7], ticket := [9],
    key := List.replicate 32 9, keyLen := 32, maxEarlyDataSize := none }

/-- C9 witness: parsing the concrete ticket stores the PSK derived by
the HKDF-Expand-Label instance on the stored nonce, of hash length. -/
theorem tls13_new_session_ticket_resumption_psk_witness :
    nst_cex_session.key =
      nst_cex_hkdf .sha256 [] resumptionLabel nst_cex_session.nonce (hashLen .sha256) ∧
    nst_cex_session.keyLen = hashLen .sha256 :=
  tls13_new_session_ticket_resumption_psk nst_cex_hkdf .sha256 [] nst_cex_buf
    nst_cex_session
    (by simp [ssl_tls13_new_session_ticket_parse,
          ssl_tls13_new_session_ticket_extensions_parse, nst_cex_buf,
          nst_cex_session, nst_cex_hkdf, be16, be32, hashLen, resumptionLabel])
